import Mathlib

/-!
Verification development for the roveflight recommendation tool
(src/recommendation_tool.py), shallowly embedded in Lean 4.

Modelling conventions:
* The SQLite flight store is a `List FlightRecord`; SQL equality-filtered
  SELECTs become `List.filter` over that list, preserving store order.
* Timestamps (ISO 8601 strings parsed by `datetime.fromisoformat`) are
  modelled as rational minutes on a common clock; `fromisoformat` is an
  order-isomorphism onto valid timestamps, so comparisons and
  `timedelta(minutes=m)` addition translate directly.
* Calendar dates are modelled as integer day numbers (ISO dates are in
  order-preserving bijection with them); `day += timedelta(days=1)` is `+ 1`.
* Python floats are modelled as exact rationals; `float(x)` and `int(x)`
  coercions on values that are already numeric are the identity.
  `round(x, 2)` is exact round-half-to-even at two decimals.
* `raise ValueError(msg)` becomes `Except.error msg`; `re.escape` makes an
  allowlist entry match as a literal, so the `str.contains` filter is a
  literal case-insensitive substring test.
* A pandas DataFrame is a record of a column-name list and a row list.
-/

/-- One row of the `flights` relation in the data store. -/
structure FlightRecord where
  airline : String
  flightNumber : String
  routeOrigin : String
  routeDestination : String
  date : Int
  departureTime : Rat
  arrivalTime : Rat
  price : Rat
  miles : Int
deriving DecidableEq, Repr

/-- One SELECTed flight tuple (airline, flight_number, departure_time,
arrival_time, price, miles). -/
structure FlightLeg where
  airline : String
  flightNumber : String
  departureTime : Rat
  arrivalTime : Rat
  price : Rat
  miles : Int
deriving DecidableEq, Repr

/-- Project a store record to the 6-column SELECT tuple. -/
def FlightRecord.toLeg (r : FlightRecord) : FlightLeg :=
  ⟨r.airline, r.flightNumber, r.departureTime, r.arrivalTime, r.price, r.miles⟩

/-- The flight data store. -/
abbrev FlightDB := List FlightRecord

deriving instance DecidableEq for Except

/-- Round a rational to the nearest integer, ties to even (Python `round`
on an exactly represented value). -/
def roundHalfEven (q : Rat) : Int :=
  let n := ⌊q⌋
  let frac := q - n
  if frac < 1/2 then n
  else if 1/2 < frac then n + 1
  else if n % 2 = 0 then n else n + 1

/-- Python `round(x, 2)`. -/
def pyRound2 (x : Rat) : Rat := (roundHalfEven (x * 100) : Rat) / 100

/-- Source function calculate_value_per_mile (recommendation_tool.py
lines 9-13):
raises ValueError on zero miles, else returns
`round(((cash_price - taxes_and_fees) / miles_used) * 100, 2)`. -/
def calculate_value_per_mile (cash_price taxes_and_fees : Rat)
    (miles_used : Int) : Except String Rat :=
  if miles_used = 0 then .error "Miles used cannot be zero."
  else
    let value := (cash_price - taxes_and_fees) / (miles_used : Rat)
    .ok (pyRound2 (value * 100))

/-- The value the spec's contract promises, written from the spec formula
`round(((P - T) / M) * 100, 2)`. -/
def specValuePerMile (p t : Rat) (m : Int) : Rat :=
  pyRound2 ((p - t) / (m : Rat) * 100)

/-- The fixed international-pair policy table
(recommendation_tool.py line 62). -/
def international_routes : List (String × String) :=
  [("JFK", "LHR"), ("DXB", "LHR"), ("LAX", "HND")]

/-- Source function estimate_taxes_and_fees (lines 60-66). -/
def estimate_taxes_and_fees (origin destination : String) : Rat :=
  if (origin, destination) ∈ international_routes then 50.00 else 11.20

/-- The SELECT shared by `get_direct_flights` and both synthesizers:
all legs with the given origin, destination and date, in store order. -/
def queryLegs (db : FlightDB) (origin destination : String) (date : Int) :
    List FlightLeg :=
  (db.filter (fun r =>
    r.routeOrigin == origin && r.routeDestination == destination &&
      r.date == date)).map FlightRecord.toLeg

/-- Source function get_direct_flights (lines 17-29). -/
def get_direct_flights (db : FlightDB) (origin destination : String)
    (date : Int) : List FlightLeg :=
  queryLegs db origin destination date

/-- Source function get_possible_hub_airports (lines 33-56): airports
the origin flies to
on the date, intersected with airports that fly into the destination on the
date.  Python set iteration order is unspecified; we fix first-occurrence
order of the origin-side DISTINCT projection. -/
def get_possible_hub_airports (db : FlightDB) (origin destination : String)
    (date : Int) : List String :=
  let fromOrigin :=
    ((db.filter (fun r => r.routeOrigin == origin && r.date == date)).map
      (fun r => r.routeDestination)).eraseDups
  let toDest :=
    ((db.filter (fun r => r.routeDestination == destination && r.date == date)).map
      (fun r => r.routeOrigin)).eraseDups
  fromOrigin.filter (fun a => toDest.contains a)

/-- One synthetic (two-leg) route tuple
`(hub, flight1, flight2, total_price, total_miles, taxes)`. -/
structure SynRoute where
  hub : String
  flight1 : FlightLeg
  flight2 : FlightLeg
  totalPrice : Rat
  totalMiles : Int
  taxes : Rat
deriving DecidableEq, Repr

/-- Source function get_synthetic_routes (lines 70-108): for each hub,
cross product of
origin→hub and hub→destination legs; a pair is skipped (`continue`) when
`dep2 <= arr1 + timedelta(minutes=min_layover_minutes)`. -/
def get_synthetic_routes (db : FlightDB) (origin destination : String)
    (date : Int) (hub_airports : List String) (min_layover_minutes : Int) :
    List SynRoute :=
  hub_airports.flatMap (fun hub =>
    let first_legs := queryLegs db origin hub date
    let second_legs := queryLegs db hub destination date
    first_legs.flatMap (fun flight1 =>
      second_legs.filterMap (fun flight2 =>
        if flight2.departureTime ≤
            flight1.arrivalTime + (min_layover_minutes : Rat) then
          none
        else
          some ⟨hub, flight1, flight2,
                flight1.price + flight2.price,
                flight1.miles + flight2.miles,
                estimate_taxes_and_fees origin hub +
                  estimate_taxes_and_fees hub destination⟩)))

/-- Source function build_synthetic_routes, the helper nested in
`recommend_routes`
(lines 210-243).  Identical loop structure; the source additionally wraps
the totals in `float(...)` and `int(...)`, which on numeric store values
are the identity. -/
def build_synthetic_routes (db : FlightDB) (origin destination : String)
    (date : Int) (hub_airports : List String) (min_layover_minutes : Int) :
    List SynRoute :=
  hub_airports.flatMap (fun hub =>
    let first_legs := queryLegs db origin hub date
    let second_legs := queryLegs db hub destination date
    first_legs.flatMap (fun flight1 =>
      second_legs.filterMap (fun flight2 =>
        if flight2.departureTime ≤
            flight1.arrivalTime + (min_layover_minutes : Rat) then
          none
        else
          some ⟨hub, flight1, flight2,
                flight1.price + flight2.price,
                flight1.miles + flight2.miles,
                estimate_taxes_and_fees origin hub +
                  estimate_taxes_and_fees hub destination⟩)))

/-- One entry of the `all_options` list in `recommend_best_route`
(lines 126-148): the per-candidate dictionary. -/
structure RouteOption where
  rtype : String
  route : List (String × String)
  flights : List FlightLeg
  price : Rat
  miles : Int
  taxes : Rat
  value_per_mile : Rat
deriving DecidableEq, Repr

/-- Result of `recommend_best_route`: the Python function returns either the
string "No flights available for that day." or a best-option dictionary;
the two runtime types are the two constructors. -/
inductive RecResult where
  | noFlightsMessage (msg : String)
  | best (option : RouteOption)
deriving DecidableEq, Repr

/-- Python `max(best :: rest, key=value_per_mile)`: fold keeping the current
element unless a strictly larger key appears (first maximum wins). -/
def pickBest (best : RouteOption) : List RouteOption → RouteOption
  | [] => best
  | x :: xs =>
      pickBest (if best.value_per_mile < x.value_per_mile then x else best) xs

/-- The direct-flight loop of `recommend_best_route` (lines 121-134),
in list order; scoring errors propagate. -/
def scoreDirectOptions (origin destination : String) :
    List FlightLeg → Except String (List RouteOption)
  | [] => .ok []
  | flight :: rest => do
    let taxes := estimate_taxes_and_fees origin destination
    let value ← calculate_value_per_mile flight.price taxes flight.miles
    let tail ← scoreDirectOptions origin destination rest
    .ok ({ rtype := "Direct", route := [(origin, destination)],
           flights := [flight], price := flight.price, miles := flight.miles,
           taxes := taxes, value_per_mile := value } :: tail)

/-- The synthetic-route loop of `recommend_best_route` (lines 137-148). -/
def scoreSyntheticOptions (origin destination : String) :
    List SynRoute → Except String (List RouteOption)
  | [] => .ok []
  | s :: rest => do
    let value ← calculate_value_per_mile s.totalPrice s.taxes s.totalMiles
    let tail ← scoreSyntheticOptions origin destination rest
    .ok ({ rtype := "Synthetic",
           route := [(origin, s.hub), (s.hub, destination)],
           flights := [s.flight1, s.flight2], price := s.totalPrice,
           miles := s.totalMiles, taxes := s.taxes,
           value_per_mile := value } :: tail)

/-- The full `all_options` accumulation of `recommend_best_route`:
direct options first, then synthetic options. -/
def allOptions (db : FlightDB) (origin destination : String) (date : Int)
    (hub_airports : List String) (min_layover_minutes : Int) :
    Except String (List RouteOption) := do
  let direct ← scoreDirectOptions origin destination
    (get_direct_flights db origin destination date)
  let synthetic ← scoreSyntheticOptions origin destination
    (get_synthetic_routes db origin destination date hub_airports
      min_layover_minutes)
  .ok (direct ++ synthetic)

/-- Source function recommend_best_route (lines 112-156). -/
def recommend_best_route (db : FlightDB) (origin destination : String)
    (date : Int) (hub_airports : List String) (min_layover_minutes : Int) :
    Except String RecResult := do
  let options ← allOptions db origin destination date hub_airports
    min_layover_minutes
  match options with
  | [] => .ok (.noFlightsMessage "No flights available for that day.")
  | x :: xs => .ok (.best (pickBest x xs))

/-- One row of the range-mode DataFrame (lines 262-300). -/
structure ResultRow where
  date : Int
  rtype : String
  origin : String
  destination : String
  airline : String
  price : Rat
  miles : Int
  taxes : Rat
  value_per_mile_cents : Rat
  route : List (String × String)
  flights_json : List FlightLeg
deriving DecidableEq, Repr

/-- A range-mode row before its value-per-mile score is computed. -/
structure Candidate where
  date : Int
  rtype : String
  origin : String
  destination : String
  airline : String
  price : Rat
  miles : Int
  taxes : Rat
  route : List (String × String)
  flights_json : List FlightLeg
deriving DecidableEq, Repr

/-- Attach the computed score to a candidate. -/
def Candidate.toRow (c : Candidate) (value : Rat) : ResultRow :=
  ⟨c.date, c.rtype, c.origin, c.destination, c.airline, c.price, c.miles,
   c.taxes, value, c.route, c.flights_json⟩

/-- The Direct row of the range loop (lines 257-278), minus the score. -/
def directCandidate (origin destination : String) (date : Int)
    (f : FlightLeg) : Candidate :=
  { date := date, rtype := "Direct", origin := origin,
    destination := destination, airline := f.airline, price := f.price,
    miles := f.miles, taxes := estimate_taxes_and_fees origin destination,
    route := [(origin, destination)], flights_json := [f] }

/-- The Synthetic row of the range loop (lines 283-300), minus the score. -/
def syntheticCandidate (origin destination : String) (date : Int)
    (s : SynRoute) : Candidate :=
  { date := date, rtype := "Synthetic", origin := origin,
    destination := destination,
    airline := s.flight1.airline ++ "+" ++ s.flight2.airline,
    price := s.totalPrice, miles := s.totalMiles, taxes := s.taxes,
    route := [(origin, s.hub), (s.hub, destination)],
    flights_json := [s.flight1, s.flight2] }

/-- All candidates accumulated for one day of the range loop (lines
256-300): direct rows first, then (when enabled) synthetic rows via the
discovered hubs. -/
def dayCandidates (db : FlightDB) (origin destination : String)
    (include_synthetic : Bool) (min_layover_minutes : Int) (date : Int) :
    List Candidate :=
  (get_direct_flights db origin destination date).map
    (directCandidate origin destination date) ++
  (if include_synthetic then
    (build_synthetic_routes db origin destination date
      (get_possible_hub_airports db origin destination date)
      min_layover_minutes).map (syntheticCandidate origin destination date)
  else [])

/-- The inclusive day iteration of `recommend_routes` (lines 246-253,
301), with the start/end swap when end precedes start. -/
def dateRangeDays (start_date end_date : Int) : List Int :=
  let s := if end_date < start_date then end_date else start_date
  let e := if end_date < start_date then start_date else end_date
  (List.range (e - s + 1).toNat).map (fun i => s + i)

/-- Every candidate accumulated across the whole date range, in loop
order. -/
def gatherCandidates (db : FlightDB) (origin destination : String)
    (start_date end_date : Int) (include_synthetic : Bool)
    (min_layover_minutes : Int) : List Candidate :=
  (dateRangeDays start_date end_date).flatMap
    (dayCandidates db origin destination include_synthetic
      min_layover_minutes)

/-- Score every accumulated candidate in order; the first zero-miles
candidate raises and aborts the whole computation, exactly as the inline
`calculate_value_per_mile` calls do in the Python loop. -/
def scoreRows : List Candidate → Except String (List ResultRow)
  | [] => .ok []
  | c :: cs => do
    let value ← calculate_value_per_mile c.price c.taxes c.miles
    let rest ← scoreRows cs
    .ok (c.toRow value :: rest)

/-- The fixed column schema (lines 304-307). -/
def fixedCols : List String :=
  ["date", "type", "origin", "destination", "airline", "price",
   "miles", "taxes", "value_per_mile_cents", "route", "flights_json"]

/-- A pandas DataFrame: a column-name list plus typed rows. -/
structure DataFrame where
  columns : List String
  rows : List ResultRow
deriving DecidableEq, Repr

/-- Drop leading whitespace characters. -/
def dropLeadSpace : List Char → List Char
  | [] => []
  | c :: cs => if c.isWhitespace then dropLeadSpace cs else c :: cs

/-- Python `str.strip()`: remove leading and trailing whitespace. -/
def pyStrip (s : String) : String :=
  ⟨dropLeadSpace ((dropLeadSpace s.data.reverse).reverse)⟩

/-- The allowlist cleanup of line 319: keep entries that are truthy and
whose strip is non-empty, stripped (`re.escape` then makes each entry a
literal pattern, which the model represents by matching literally). -/
def cleanAllowlist (airline_allowlist : List String) : List String :=
  airline_allowlist.filterMap (fun s =>
    if s.data.isEmpty then none
    else if (pyStrip s).data.isEmpty then none
    else some (pyStrip s))

/-- Does the first character list begin with the second? -/
def charsLead : List Char → List Char → Bool
  | _, [] => true
  | [], _ :: _ => false
  | a :: s, b :: p => a == b && charsLead s p

/-- Does the first character list contain the second contiguously? -/
def charsHaveSub : List Char → List Char → Bool
  | [], p => p.isEmpty
  | a :: s, p => charsLead (a :: s) p || charsHaveSub s p

/-- Case-insensitive literal substring test: the model of
`Series.str.contains(re.escape(pat), case=False, regex=True)` on one
string. -/
def containsCI (big pat : String) : Bool :=
  charsHaveSub (big.data.map Char.toLower) (pat.data.map Char.toLower)

/-- The sequential filter block of `recommend_routes` (lines 312-322):
minimum value-per-mile, then maximum price, then the airline allowlist
(skipped when the allowlist or its cleaned pattern list is empty). -/
def applyFilters (min_vpm_cents max_price : Option Rat)
    (airline_allowlist : List String) (rows : List ResultRow) :
    List ResultRow :=
  let rows1 := match min_vpm_cents with
    | some t => rows.filter (fun r => decide (t ≤ r.value_per_mile_cents))
    | none => rows
  let rows2 := match max_price with
    | some t => rows1.filter (fun r => decide (r.price ≤ t))
    | none => rows1
  if airline_allowlist.isEmpty then rows2
  else
    let pats := cleanAllowlist airline_allowlist
    if pats.isEmpty then rows2
    else rows2.filter (fun r => pats.any (fun p => containsCI r.airline p))

/-- Row order of `sort_values(["value_per_mile_cents", "price"],
ascending=[False, True])`: value-per-mile descending, then price
ascending. -/
def vpmOrder (a b : ResultRow) : Prop :=
  b.value_per_mile_cents < a.value_per_mile_cents ∨
    (a.value_per_mile_cents = b.value_per_mile_cents ∧ a.price ≤ b.price)

/-- Row order of `sort_values(["taxes", "price", "value_per_mile_cents"],
ascending=[True, True, False])`: taxes ascending, price ascending,
value-per-mile descending. -/
def feesOrder (a b : ResultRow) : Prop :=
  a.taxes < b.taxes ∨
    (a.taxes = b.taxes ∧ (a.price < b.price ∨
      (a.price = b.price ∧
        b.value_per_mile_cents ≤ a.value_per_mile_cents)))

instance : DecidableRel vpmOrder := fun a b => by
  unfold vpmOrder; exact inferInstance

instance : DecidableRel feesOrder := fun a b => by
  unfold feesOrder; exact inferInstance

/-- The objective sort (lines 325-328); pandas multi-key `sort_values`
orders rows by the lexicographic key comparator. -/
def sortRows (objective : String) (rows : List ResultRow) : List ResultRow :=
  if objective = "min_fees" ∧ "taxes" ∈ fixedCols then
    List.insertionSort feesOrder rows
  else
    List.insertionSort vpmOrder rows

/-- Model of pandas DataFrame.head(n): first n rows for n ≥ 0, all but
the last |n|
rows for n < 0. -/
def pdHead (n : Int) (l : List ResultRow) : List ResultRow :=
  if 0 ≤ n then l.take n.toNat else l.take (l.length - (-n).toNat)

/-- Lines 324-331: sort by objective, then `if max_results:
df = df.head(int(max_results))` — the head is skipped when `max_results`
is 0 (falsy). -/
def rankAndTruncate (objective : String) (max_results : Int)
    (rows : List ResultRow) : List ResultRow :=
  let sorted := sortRows objective rows
  if max_results ≠ 0 then pdHead max_results sorted else sorted

/-- Source function recommend_routes (lines 161-333): accumulate and
score rows over
the date range, build the fixed-schema frame, and when non-empty apply
filters, objective sort and truncation. -/
def recommend_routes (db : FlightDB) (origin destination : String)
    (start_date end_date : Int) (include_synthetic : Bool)
    (min_layover_minutes : Int) (objective : String)
    (min_vpm_cents max_price : Option Rat) (airline_allowlist : List String)
    (max_results : Int) : Except String DataFrame := do
  let rows ← scoreRows (gatherCandidates db origin destination start_date
    end_date include_synthetic min_layover_minutes)
  if rows.isEmpty then
    .ok ⟨fixedCols, rows⟩
  else
    .ok ⟨fixedCols, rankAndTruncate objective max_results
      (applyFilters min_vpm_cents max_price airline_allowlist rows)⟩

/-- Sample store record: direct LAX→JFK flight (spec section 8 example). -/
def rec1 : FlightRecord := ⟨"AA", "AA100", "LAX", "JFK", 0, 540, 900, 300, 25000⟩

/-- Sample store record: LAX→ORD first leg arriving at minute 840. -/
def rec2 : FlightRecord := ⟨"UA", "UA10", "LAX", "ORD", 0, 480, 840, 120, 10000⟩

/-- Sample store record: ORD→JFK second leg departing at minute 900. -/
def rec3 : FlightRecord := ⟨"DL", "DL20", "ORD", "JFK", 0, 900, 1100, 150, 12000⟩

/-- Sample store with one direct LAX→JFK flight and one ORD connection. -/
def sampleDB : FlightDB := [rec1, rec2, rec3]

/-- Store with only the direct LAX→JFK flight. -/
def directOnlyDB : FlightDB := [rec1]

/-- Store whose only flight has a zero mileage cost. -/
def zeroMilesDB : FlightDB := [⟨"WN", "WN5", "SFO", "BOS", 0, 100, 200, 100, 0⟩]

/-- The synthetic route the sample store yields via ORD. -/
def syn1 : SynRoute := ⟨"ORD", rec2.toLeg, rec3.toLeg, 270, 22000, 112/5⟩

/-- The scored direct option of the sample store
(value 1.16 = round((300-11.2)/25000*100, 2)). -/
def directOpt : RouteOption :=
  { rtype := "Direct", route := [("LAX", "JFK")], flights := [rec1.toLeg],
    price := 300, miles := 25000, taxes := 56/5, value_per_mile := 29/25 }

/-- The scored synthetic option of the sample store
(value 1.13 = round((270-22.4)/22000*100, 2)). -/
def synOpt : RouteOption :=
  { rtype := "Synthetic", route := [("LAX", "ORD"), ("ORD", "JFK")],
    flights := [rec2.toLeg, rec3.toLeg], price := 270, miles := 22000,
    taxes := 112/5, value_per_mile := 113/100 }

/-- The range-mode row the direct-only store yields on day 0. -/
def row8 : ResultRow :=
  { date := 0, rtype := "Direct", origin := "LAX", destination := "JFK",
    airline := "AA", price := 300, miles := 25000, taxes := 56/5,
    value_per_mile_cents := 29/25, route := [("LAX", "JFK")],
    flights_json := [rec1.toLeg] }

/-- A second concrete range-mode row, cheaper but lower-valued. -/
def row9 : ResultRow :=
  { date := 0, rtype := "Direct", origin := "LAX", destination := "JFK",
    airline := "DL", price := 250, miles := 25000, taxes := 56/5,
    value_per_mile_cents := 1, route := [("LAX", "JFK")],
    flights_json := [rec1.toLeg] }

instance : IsTotal ResultRow vpmOrder :=
  ⟨fun a b => by
    unfold vpmOrder
    rcases lt_trichotomy a.value_per_mile_cents b.value_per_mile_cents with
      h | h | h
    · exact Or.inr (Or.inl h)
    · rcases le_total a.price b.price with hp | hp
      · exact Or.inl (Or.inr ⟨h, hp⟩)
      · exact Or.inr (Or.inr ⟨h.symm, hp⟩)
    · exact Or.inl (Or.inl h)⟩

instance : IsTrans ResultRow vpmOrder :=
  ⟨fun a b c hab hbc => by
    unfold vpmOrder at hab hbc ⊢
    rcases hab with h1 | ⟨e1, p1⟩ <;> rcases hbc with h2 | ⟨e2, p2⟩
    · exact Or.inl (h2.trans h1)
    · left; rw [← e2]; exact h1
    · left; rw [e1]; exact h2
    · exact Or.inr ⟨e1.trans e2, p1.trans p2⟩⟩

instance : IsTotal ResultRow feesOrder :=
  ⟨fun a b => by
    unfold feesOrder
    rcases lt_trichotomy a.taxes b.taxes with h | h | h
    · exact Or.inl (Or.inl h)
    · rcases lt_trichotomy a.price b.price with hp | hp | hp
      · exact Or.inl (Or.inr ⟨h, Or.inl hp⟩)
      · rcases le_total b.value_per_mile_cents a.value_per_mile_cents with
          hv | hv
        · exact Or.inl (Or.inr ⟨h, Or.inr ⟨hp, hv⟩⟩)
        · exact Or.inr (Or.inr ⟨h.symm, Or.inr ⟨hp.symm, hv⟩⟩)
      · exact Or.inr (Or.inr ⟨h.symm, Or.inl hp⟩)
    · exact Or.inr (Or.inl h)⟩

instance : IsTrans ResultRow feesOrder :=
  ⟨fun a b c hab hbc => by
    unfold feesOrder at hab hbc ⊢
    rcases hab with h1 | ⟨e1, r1⟩
    · rcases hbc with h2 | ⟨e2, _⟩
      · exact Or.inl (h1.trans h2)
      · left; rw [← e2]; exact h1
    · rcases hbc with h2 | ⟨e2, r2⟩
      · left; rw [e1]; exact h2
      · refine Or.inr ⟨e1.trans e2, ?_⟩
        rcases r1 with hp1 | ⟨ep1, hv1⟩
        · rcases r2 with hp2 | ⟨ep2, _⟩
          · exact Or.inl (hp1.trans hp2)
          · left; rw [← ep2]; exact hp1
        · rcases r2 with hp2 | ⟨ep2, hv2⟩
          · left; rw [ep1]; exact hp2
          · exact Or.inr ⟨ep1.trans ep2, hv2.trans hv1⟩⟩

lemma mem_get_synthetic_routes {db : FlightDB} {origin destination : String}
    {date : Int} {hub_airports : List String} {min_layover_minutes : Int}
    {r : SynRoute}
    (h : r ∈ get_synthetic_routes db origin destination date hub_airports
      min_layover_minutes) :
    ∃ hub ∈ hub_airports, ∃ f1 ∈ queryLegs db origin hub date,
      ∃ f2 ∈ queryLegs db hub destination date,
        ¬(f2.departureTime ≤
            f1.arrivalTime + (min_layover_minutes : Rat)) ∧
        r = ⟨hub, f1, f2, f1.price + f2.price, f1.miles + f2.miles,
             estimate_taxes_and_fees origin hub +
               estimate_taxes_and_fees hub destination⟩ := by
  simp only [get_synthetic_routes, List.mem_flatMap, List.mem_filterMap] at h
  obtain ⟨hub, hhub, f1, hf1, f2, hf2, hsome⟩ := h
  by_cases hle : f2.departureTime ≤ f1.arrivalTime + (min_layover_minutes : Rat)
  · rw [if_pos hle] at hsome
    exact absurd hsome (by simp)
  · rw [if_neg hle] at hsome
    exact ⟨hub, hhub, f1, hf1, f2, hf2, hle, (Option.some_inj.mp hsome).symm⟩

/-- Claim C1: every synthetic route emitted by the Route Synthesizer has its
second leg departing strictly after the first leg's arrival plus the minimum
layover; the boundary pair (departure = arrival + layover) is excluded. -/
theorem claim1_layover_strict (db : FlightDB) (origin destination : String)
    (date : Int) (hub_airports : List String) (min_layover_minutes : Int)
    (r : SynRoute)
    (hr : r ∈ get_synthetic_routes db origin destination date hub_airports
      min_layover_minutes) :
    r.flight1.arrivalTime + (min_layover_minutes : Rat) <
      r.flight2.departureTime := by
  obtain ⟨hub, -, f1, -, f2, -, hlt, hreq⟩ := mem_get_synthetic_routes hr
  subst hreq
  exact lt_of_not_le hlt

unseal Rat.add Rat.sub Rat.mul Rat.inv Rat.ofScientific in
theorem claim1_layover_strict_witness :
    syn1 ∈ get_synthetic_routes sampleDB "LAX" "JFK" 0 ["ORD"] 45 ∧
    syn1.flight1.arrivalTime + ((45 : Int) : Rat) <
      syn1.flight2.departureTime :=
  ⟨by decide,
   claim1_layover_strict sampleDB "LAX" "JFK" 0 ["ORD"] 45 syn1 (by decide)⟩

/-- Claim C2: for positive miles, calculate_value_per_mile returns exactly
the spec formula round(((P - T) / M) * 100, 2), and is deterministic. -/
theorem claim2_metric_contract (p t : Rat) (m : Int) (hm : 0 < m) :
    calculate_value_per_mile p t m = .ok (specValuePerMile p t m) ∧
    calculate_value_per_mile p t m = calculate_value_per_mile p t m := by
  refine ⟨?_, rfl⟩
  unfold calculate_value_per_mile specValuePerMile
  rw [if_neg hm.ne']

theorem claim2_metric_contract_witness :
    (0 : Int) < 25000 ∧
    calculate_value_per_mile 300 (56/5) 25000 =
      .ok (specValuePerMile 300 (56/5) 25000) :=
  ⟨by decide, (claim2_metric_contract 300 (56/5) 25000 (by decide)).1⟩

/-- Claim C5: the Fee Estimator is total and two-valued: listed
international pairs map to 50.00, every other ordered pair (including the
unlisted reverse of a listed pair) maps to 11.20. -/
theorem claim5_fee_estimator (origin destination : String) :
    ((origin, destination) ∈ international_routes →
      estimate_taxes_and_fees origin destination = 50.00) ∧
    ((origin, destination) ∉ international_routes →
      estimate_taxes_and_fees origin destination = 11.20) ∧
    (estimate_taxes_and_fees origin destination = 50.00 ∨
      estimate_taxes_and_fees origin destination = 11.20) := by
  unfold estimate_taxes_and_fees
  by_cases h : (origin, destination) ∈ international_routes <;> simp [h]

theorem claim5_fee_estimator_witness :
    estimate_taxes_and_fees "JFK" "LHR" = 50.00 ∧
    estimate_taxes_and_fees "LHR" "JFK" = 11.20 :=
  ⟨(claim5_fee_estimator "JFK" "LHR").1 (by decide),
   (claim5_fee_estimator "LHR" "JFK").2.1 (by decide)⟩

/-- Claim C6: every emitted synthetic itinerary totals its two legs' prices
and miles, and its taxes are the two-call per-segment composition
estimate(origin, hub) + estimate(hub, destination). -/
theorem claim6_synthetic_totals (db : FlightDB) (origin destination : String)
    (date : Int) (hub_airports : List String) (min_layover_minutes : Int)
    (r : SynRoute)
    (hr : r ∈ get_synthetic_routes db origin destination date hub_airports
      min_layover_minutes) :
    r.totalPrice = r.flight1.price + r.flight2.price ∧
    r.totalMiles = r.flight1.miles + r.flight2.miles ∧
    r.taxes = estimate_taxes_and_fees origin r.hub +
      estimate_taxes_and_fees r.hub destination := by
  obtain ⟨hub, -, f1, -, f2, -, -, hreq⟩ := mem_get_synthetic_routes hr
  subst hreq
  exact ⟨rfl, rfl, rfl⟩

unseal Rat.add Rat.sub Rat.mul Rat.inv Rat.ofScientific in
theorem claim6_synthetic_totals_witness :
    syn1 ∈ get_synthetic_routes sampleDB "LAX" "JFK" 0 ["ORD"] 45 ∧
    syn1.totalPrice = syn1.flight1.price + syn1.flight2.price ∧
    syn1.totalMiles = syn1.flight1.miles + syn1.flight2.miles ∧
    syn1.taxes = estimate_taxes_and_fees "LAX" syn1.hub +
      estimate_taxes_and_fees syn1.hub "JFK" :=
  ⟨by decide,
   claim6_synthetic_totals sampleDB "LAX" "JFK" 0 ["ORD"] 45 syn1 (by decide)⟩

/-- Claim C10: the module-level synthesizer and the helper nested inside
recommend_routes produce identical route sequences on every store state and
query (the float/int coercions of the nested helper are the identity on
numeric store values). -/
theorem claim10_synthesizers_equivalent (db : FlightDB)
    (origin destination : String) (date : Int) (hub_airports : List String)
    (min_layover_minutes : Int) :
    get_synthetic_routes db origin destination date hub_airports
        min_layover_minutes =
      build_synthetic_routes db origin destination date hub_airports
        min_layover_minutes := rfl

lemma scoreRows_error {l : List Candidate} (h : ∃ c ∈ l, c.miles = 0) :
    scoreRows l = .error "Miles used cannot be zero." := by
  induction l with
  | nil => simp at h
  | cons a as ih =>
    obtain ⟨c, hc, hmiles⟩ := h
    by_cases ha : a.miles = 0
    · have hcalc : calculate_value_per_mile a.price a.taxes a.miles =
          .error "Miles used cannot be zero." := by
        simp [calculate_value_per_mile, ha]
      simp only [scoreRows, hcalc]
      rfl
    · have hcas : c ∈ as := by
        rcases List.mem_cons.mp hc with h1 | h1
        · exact absurd (h1 ▸ hmiles) ha
        · exact h1
      have herr := ih ⟨c, hcas, hmiles⟩
      have hcalc : calculate_value_per_mile a.price a.taxes a.miles =
          .ok (pyRound2 ((a.price - a.taxes) / (a.miles : Rat) * 100)) := by
        simp [calculate_value_per_mile, ha]
      simp only [scoreRows, hcalc, herr]
      rfl

/-- Claim C3: the Metric Calculator rejects zero miles for every price and
tax input, and in range mode a zero-mileage candidate anywhere in the
accumulated set makes the whole recommend_routes call fail with that same
error instead of being skipped or defaulted. -/
theorem claim3_zero_miles_aborts :
    (∀ p t : Rat, calculate_value_per_mile p t 0 =
      .error "Miles used cannot be zero.") ∧
    (∀ (db : FlightDB) (origin destination : String) (sd ed : Int)
      (inc : Bool) (ml : Int) (obj : String) (mv mp : Option Rat)
      (al : List String) (mr : Int),
      (∃ c ∈ gatherCandidates db origin destination sd ed inc ml,
        c.miles = 0) →
      recommend_routes db origin destination sd ed inc ml obj mv mp al mr =
        .error "Miles used cannot be zero.") := by
  constructor
  · intro p t; rfl
  · intro db origin destination sd ed inc ml obj mv mp al mr h
    have herr := scoreRows_error h
    simp only [recommend_routes, herr]
    rfl

unseal Rat.add Rat.sub Rat.mul Rat.inv Rat.ofScientific in
theorem claim3_zero_miles_aborts_witness :
    calculate_value_per_mile 5 3 0 = .error "Miles used cannot be zero." ∧
    recommend_routes zeroMilesDB "SFO" "BOS" 0 0 true 45 "vpm" none none []
      100 = .error "Miles used cannot be zero." :=
  ⟨claim3_zero_miles_aborts.1 5 3,
   claim3_zero_miles_aborts.2 zeroMilesDB "SFO" "BOS" 0 0 true 45 "vpm"
     none none [] 100 (by decide)⟩

/-- Claim C4: every successful range-mode result carries exactly the fixed
column schema, for every input, including inputs yielding zero rows. -/
theorem claim4_fixed_schema (db : FlightDB) (origin destination : String)
    (sd ed : Int) (inc : Bool) (ml : Int) (obj : String)
    (mv mp : Option Rat) (al : List String) (mr : Int) (df : DataFrame)
    (h : recommend_routes db origin destination sd ed inc ml obj mv mp al
      mr = .ok df) :
    df.columns = fixedCols := by
  unfold recommend_routes at h
  cases hsr : scoreRows (gatherCandidates db origin destination sd ed inc
      ml) with
  | error e => rw [hsr] at h; exact Except.noConfusion h
  | ok rows =>
    rw [hsr] at h
    have h2 : (if rows.isEmpty then
          Except.ok (⟨fixedCols, rows⟩ : DataFrame)
        else Except.ok ⟨fixedCols, rankAndTruncate obj mr
          (applyFilters mv mp al rows)⟩) = Except.ok df := h
    split at h2 <;> · cases h2; rfl

theorem claim4_fixed_schema_witness :
    recommend_routes [] "LAX" "JFK" 0 0 true 45 "vpm" none none [] 100 =
      .ok ⟨fixedCols, []⟩ ∧
    (⟨fixedCols, []⟩ : DataFrame).columns = fixedCols :=
  ⟨rfl,
   claim4_fixed_schema [] "LAX" "JFK" 0 0 true 45 "vpm" none none [] 100
     ⟨fixedCols, []⟩ rfl⟩

lemma pickBest_eq_or_mem (b : RouteOption) (l : List RouteOption) :
    pickBest b l = b ∨ pickBest b l ∈ l := by
  induction l generalizing b with
  | nil => exact Or.inl rfl
  | cons x xs ih =>
    rw [pickBest]
    rcases ih (if b.value_per_mile < x.value_per_mile then x else b) with
      h | h
    · rw [h]
      by_cases hx : b.value_per_mile < x.value_per_mile
      · rw [if_pos hx]; exact Or.inr (List.mem_cons_self x xs)
      · rw [if_neg hx]; exact Or.inl rfl
    · exact Or.inr (List.mem_cons_of_mem x h)

lemma pickBest_le (b : RouteOption) (l : List RouteOption) :
    b.value_per_mile ≤ (pickBest b l).value_per_mile ∧
    ∀ y ∈ l, y.value_per_mile ≤ (pickBest b l).value_per_mile := by
  induction l generalizing b with
  | nil =>
    refine ⟨le_refl _, ?_⟩
    intro y hy
    simp at hy
  | cons x xs ih =>
    obtain ⟨h1, h2⟩ :=
      ih (if b.value_per_mile < x.value_per_mile then x else b)
    rw [pickBest]
    constructor
    · refine le_trans ?_ h1
      by_cases hx : b.value_per_mile < x.value_per_mile
      · rw [if_pos hx]; exact le_of_lt hx
      · rw [if_neg hx]
    · intro y hy
      rcases List.mem_cons.mp hy with rfl | hmem
      · refine le_trans ?_ h1
        by_cases hx : b.value_per_mile < y.value_per_mile
        · rw [if_pos hx]
        · rw [if_neg hx]; exact le_of_not_lt hx
      · exact h2 y hmem

/-- Claim C7: in single-date mode, with the gathered option list known,
an empty list yields the explicit no-options sentinel (a success value,
distinct by construction from every winning-candidate value), and a
non-empty list yields a candidate of maximal value-per-mile among all
gathered direct and synthetic candidates. -/
theorem claim7_best_pick (db : FlightDB) (origin destination : String)
    (date : Int) (hub_airports : List String) (min_layover_minutes : Int)
    (options : List RouteOption)
    (h : allOptions db origin destination date hub_airports
      min_layover_minutes = .ok options) :
    (options = [] → recommend_best_route db origin destination date
      hub_airports min_layover_minutes =
      .ok (.noFlightsMessage "No flights available for that day.")) ∧
    (∀ x xs, options = x :: xs →
      recommend_best_route db origin destination date hub_airports
        min_layover_minutes = .ok (.best (pickBest x xs)) ∧
      pickBest x xs ∈ options ∧
      ∀ y ∈ options, y.value_per_mile ≤ (pickBest x xs).value_per_mile) ∧
    (∀ msg o, RecResult.noFlightsMessage msg ≠ RecResult.best o) := by
  refine ⟨?_, ?_, ?_⟩
  · intro hnil
    subst hnil
    unfold recommend_best_route
    rw [h]
    rfl
  · intro x xs hx
    subst hx
    refine ⟨by unfold recommend_best_route; rw [h]; rfl, ?_, ?_⟩
    · rcases pickBest_eq_or_mem x xs with he | hm
      · rw [he]; exact List.mem_cons_self x xs
      · exact List.mem_cons_of_mem x hm
    · intro y hy
      obtain ⟨h1, h2⟩ := pickBest_le x xs
      rcases List.mem_cons.mp hy with rfl | hmem
      · exact h1
      · exact h2 y hmem
  · intro msg o hno
    exact RecResult.noConfusion hno

unseal Rat.add Rat.sub Rat.mul Rat.inv Rat.ofScientific in
theorem claim7_best_pick_witness :
    recommend_best_route sampleDB "LAX" "JFK" 0 ["ORD"] 45 =
      .ok (.best (pickBest directOpt [synOpt])) ∧
    pickBest directOpt [synOpt] ∈ [directOpt, synOpt] := by
  have h := (claim7_best_pick sampleDB "LAX" "JFK" 0 ["ORD"] 45
    [directOpt, synOpt] (by decide)).2.1 directOpt [synOpt] rfl
  exact ⟨h.1, h.2.1⟩

unseal Rat.add Rat.sub Rat.mul Rat.inv Rat.ofScientific in
/-- Claim C8 (counterexample to the claim as stated): with allowlist
entry "  AA  " (surrounding whitespace) and airline label "AA", the row
survives the filter stage although the allowlist is non-empty and no
allowlist entry is, as given, a case-insensitive literal substring of the
airline label — the code strips entries before matching. -/
theorem claim8_counterexample :
    row8 ∈ applyFilters none none ["  AA  "] [row8] ∧
    ¬ ((["  AA  "] : List String) = [] ∨
      ∃ p ∈ (["  AA  "] : List String), containsCI row8.airline p = true) :=
  ⟨by decide, by decide⟩

/-- Claim C8 (amended): a row survives the range-mode filter stage exactly
when it passes the minimum value-per-mile threshold (when given), the
maximum price threshold (when given), and the airline allowlist after the
code's cleanup — entries stripped of surrounding whitespace, blank entries
dropped — is empty, or some cleaned entry is a case-insensitive literal
substring of the row's airline label. -/
theorem claim8_filter_conjunction (mv mp : Option Rat) (al : List String)
    (rows : List ResultRow) (r : ResultRow) :
    r ∈ applyFilters mv mp al rows ↔
      r ∈ rows ∧
      (∀ t, mv = some t → t ≤ r.value_per_mile_cents) ∧
      (∀ t, mp = some t → r.price ≤ t) ∧
      (cleanAllowlist al = [] ∨
        ∃ p ∈ cleanAllowlist al, containsCI r.airline p = true) := by
  unfold applyFilters
  rcases al with _ | ⟨a, as⟩
  · have hclean : cleanAllowlist [] = [] := rfl
    rcases mv with _ | t1 <;> rcases mp with _ | t2 <;>
      simp [hclean, List.mem_filter, and_assoc] <;>
      (intro hr; tauto)
  · by_cases hp : (cleanAllowlist (a :: as)).isEmpty
    · have hclean : cleanAllowlist (a :: as) = [] :=
        List.isEmpty_iff.mp hp
      rcases mv with _ | t1 <;> rcases mp with _ | t2 <;>
        simp [hp, hclean, List.mem_filter, and_assoc] <;>
        (intro hr; tauto)
    · have hne : cleanAllowlist (a :: as) ≠ [] := by
        intro hc
        rw [hc] at hp
        exact hp rfl
      rcases mv with _ | t1 <;> rcases mp with _ | t2 <;>
        simp [hp, hne, List.mem_filter, List.any_eq_true, and_assoc] <;>
        (intro hr; tauto)

unseal Rat.add Rat.sub Rat.mul Rat.inv Rat.ofScientific in
theorem claim8_filter_conjunction_witness :
    row8 ∈ applyFilters (some 1) (some 300) ["aa"] [row8] :=
  (claim8_filter_conjunction (some 1) (some 300) ["aa"] [row8] row8).mpr
    ⟨by decide,
     fun t ht => by cases ht; decide,
     fun t ht => by cases ht; decide,
     Or.inr ⟨"aa", by decide, by decide⟩⟩

unseal Rat.add Rat.sub Rat.mul Rat.inv Rat.ofScientific in
/-- Claim C9 (counterexample to the claim as stated): the claim promises
truncation to at most max_results rows for every value of max_results, but
`if max_results:` is falsy at 0, so with max_results = 0 the range-mode
pipeline returns 1 row, not at most 0. -/
theorem claim9_counterexample :
    recommend_routes directOnlyDB "LAX" "JFK" 0 0 true 45 "vpm" none none
      [] 0 = .ok ⟨fixedCols, [row8]⟩ ∧
    ¬ ((⟨fixedCols, [row8]⟩ : DataFrame).rows.length ≤ (0 : Int).toNat) :=
  ⟨by decide, by decide⟩

/-- Claim C9 (amended): after filtering, range-mode rows are sorted by the
selected objective — under min_fees by (taxes asc, price asc,
value-per-mile desc), otherwise by (value-per-mile desc, price asc) — and
for every positive max_results the result is the first max_results rows of
that order; max_results = 0 is falsy and disables truncation. -/
theorem claim9_sort_and_truncate (objective : String) (max_results : Int)
    (rows : List ResultRow) (h : 0 < max_results) :
    rankAndTruncate objective max_results rows =
      (sortRows objective rows).take max_results.toNat ∧
    (rankAndTruncate objective max_results rows).length ≤
      max_results.toNat ∧
    (sortRows objective rows).Perm rows ∧
    (objective = "min_fees" →
      (sortRows objective rows).Sorted feesOrder) ∧
    (objective ≠ "min_fees" →
      (sortRows objective rows).Sorted vpmOrder) := by
  have heq : rankAndTruncate objective max_results rows =
      (sortRows objective rows).take max_results.toNat := by
    unfold rankAndTruncate pdHead
    rw [if_pos h.ne', if_pos h.le]
  refine ⟨heq, ?_, ?_, ?_, ?_⟩
  · rw [heq]
    exact List.length_take_le _ _
  · unfold sortRows
    split
    · exact List.perm_insertionSort feesOrder rows
    · exact List.perm_insertionSort vpmOrder rows
  · intro hobj
    unfold sortRows
    rw [if_pos ⟨hobj, by decide⟩]
    exact List.sorted_insertionSort feesOrder rows
  · intro hobj
    unfold sortRows
    rw [if_neg (fun hc => hobj hc.1)]
    exact List.sorted_insertionSort vpmOrder rows

unseal Rat.add Rat.sub Rat.mul Rat.inv Rat.ofScientific in
theorem claim9_sort_and_truncate_witness :
    rankAndTruncate "vpm" 1 [row8, row9] =
      (sortRows "vpm" [row8, row9]).take (1 : Int).toNat ∧
    (rankAndTruncate "vpm" 1 [row8, row9]).length ≤ (1 : Int).toNat := by
  have h := claim9_sort_and_truncate "vpm" 1 [row8, row9] (by decide)
  exact ⟨h.1, h.2.1⟩
